import Mathlib

/-!
Shallow embedding of the escrow contract (`src/contract.rs`, `src/error.rs`).

Addresses are strings; amounts are lists of coins with `Nat` amounts (the
Rust `Uint128` values are only passed through, never computed on).  The host
collaborators are explicit parameters: `api` models `deps.api.addr_validate`
and `querier` models `deps.querier.query_all_balances`; both may fail with a
`StdError`, which the contract propagates via the `?` operator.  Storage is
the single config item (`Option State`), passed in and returned explicitly;
the Rust entry points mutate `deps.storage` in place, here the returned
second component is the storage content after the call.
-/

/-- Account identity (Rust `Addr`). -/
abbrev Addr := String

/-- A denomination together with an amount (Rust `Coin`). -/
structure Coin where
  denom : String
  amount : Nat
deriving DecidableEq, Repr

/-- Host-supplied call environment: `env.block.height`, `env.block.time`
and `env.contract.address` from the Rust `Env`. -/
structure Env where
  block_height : Nat
  block_time : Nat
  contract_address : Addr
deriving DecidableEq, Repr

/-- The call envelope (Rust `MessageInfo`): only `sender` is used. -/
structure MessageInfo where
  sender : Addr
deriving DecidableEq, Repr

/-- The persisted escrow record (Rust `State` in the absent `src/state.rs`,
whose shape is fixed by its construction in `instantiate` and by the
`proper_initialization` test). -/
structure State where
  arbiter : Addr
  recipient : Addr
  source : Addr
  end_height : Option Nat
  end_time : Option Nat
deriving DecidableEq, Repr

/-- Generic host/storage error (Rust `cosmwasm_std::StdError`), carried by
`ContractError::Std`.  `notFound` is the load failure of an absent config
item. -/
inductive StdError where
  | notFound : StdError
  | genericErr (msg : String) : StdError
deriving DecidableEq, Repr

/-- The contract's error type (`src/error.rs`). -/
inductive ContractError where
  | Std (e : StdError) : ContractError
  | Unauthorized : ContractError
  | Expired (end_height : Option Nat) (end_time : Option Nat) : ContractError
  | NotExpired (end_height : Option Nat) (end_time : Option Nat) : ContractError
deriving DecidableEq, Repr

/-- A transfer instruction handed back to the host (Rust `BankMsg::Send`). -/
inductive BankMsg where
  | Send (to_address : Addr) (amount : List Coin) : BankMsg
deriving DecidableEq, Repr

/-- The response of a successful call: emitted transfer instructions plus
observability attributes (Rust `Response`, restricted to the parts this
contract uses). -/
structure Response where
  messages : List BankMsg
  attributes : List (String × String)
deriving DecidableEq, Repr

/-- Rust `Response::default()`: no messages, no attributes. -/
def Response.default : Response := ⟨[], []⟩

/-- Instantiate message (`InstantiateMsg` in the absent `src/msg.rs`, shape
fixed by its uses in `instantiate` and the tests). -/
structure InstantiateMsg where
  arbiter : String
  recipient : String
  end_height : Option Nat
  end_time : Option Nat
deriving DecidableEq, Repr

/-- Execute message (`ExecuteMsg` in the absent `src/msg.rs`):
`Approve { quantity }` or `Refund {}`. -/
inductive ExecuteMsg where
  | Approve (quantity : Option (List Coin)) : ExecuteMsg
  | Refund : ExecuteMsg
deriving DecidableEq, Repr

/-- The singleton config item held in storage. -/
abbrev Storage := Option State

/-- Modelled from the spec: `State::is_expired` lives in the absent
`src/state.rs`; spec section 4.1 defines it as true iff (`end_height` is set
and `current_height >= end_height`) or (`end_time` is set and
`current_time >= end_time`), false when neither bound is set. -/
def State.is_expired (s : State) (env : Env) : Bool :=
  (match s.end_height with
   | some h => decide (env.block_height ≥ h)
   | none => false) ||
  (match s.end_time with
   | some t => decide (env.block_time ≥ t)
   | none => false)

/-- Lifts a host `StdError` result into `ContractError` (the Rust `?`
operator through `ContractError::Std(#[from] StdError)`). -/
def mapStdErr {α : Type} : Except StdError α → Except ContractError α
  | Except.error e => Except.error (ContractError.Std e)
  | Except.ok a => Except.ok a

/-- `try_approve` (`src/contract.rs` lines 55-83): fail with `Expired` if the
escrow is expired; fail with `Unauthorized` if the caller is not the arbiter;
otherwise resolve the amount (the supplied `quantity`, else the instance's
full balance from the querier) and emit one `BankMsg::Send` to the recipient
with an `("Approved", "amount")` attribute. -/
def try_approve (querier : Addr → Except StdError (List Coin)) (env : Env)
    (info : MessageInfo) (state : State) (quantity : Option (List Coin)) :
    Except ContractError Response :=
  if state.is_expired env then
    Except.error (ContractError.Expired state.end_height state.end_time)
  else if info.sender ≠ state.arbiter then
    Except.error ContractError.Unauthorized
  else
    match (match quantity with
           | some q => Except.ok q
           | none => mapStdErr (querier env.contract_address)) with
    | Except.error e => Except.error e
    | Except.ok amount =>
        Except.ok { messages := [BankMsg.Send state.recipient amount],
                    attributes := [("Approved", "amount")] }

/-- `try_refund` (`src/contract.rs` lines 84-107): fail with `Unauthorized`
if the caller is not the arbiter; fail with `NotExpired` if the escrow is not
expired; otherwise query the full balance and emit one `BankMsg::Send` of it
to the source. -/
def try_refund (querier : Addr → Except StdError (List Coin))
    (info : MessageInfo) (env : Env) (state : State) :
    Except ContractError Response :=
  if info.sender ≠ state.arbiter then
    Except.error ContractError.Unauthorized
  else if ¬ state.is_expired env then
    Except.error (ContractError.NotExpired state.end_height state.end_time)
  else
    match mapStdErr (querier env.contract_address) with
    | Except.error e => Except.error e
    | Except.ok amount =>
        Except.ok { messages := [BankMsg.Send state.source amount],
                    attributes := [] }

/-- `instantiate` (`src/contract.rs` lines 17-39): validate the arbiter and
recipient addresses, build the record with `source` = caller, fail with
`Expired` (writing nothing) if the record is already expired, else save the
record and return `Response::default()`. -/
def instantiate (api : String → Except StdError Addr) (env : Env)
    (info : MessageInfo) (msg : InstantiateMsg) (st : Storage) :
    Except ContractError Response × Storage :=
  match api msg.arbiter with
  | Except.error e => (Except.error (ContractError.Std e), st)
  | Except.ok arb =>
    match api msg.recipient with
    | Except.error e => (Except.error (ContractError.Std e), st)
    | Except.ok rcpt =>
      let state : State :=
        { arbiter := arb, recipient := rcpt, source := info.sender,
          end_height := msg.end_height, end_time := msg.end_time }
      if state.is_expired env then
        (Except.error (ContractError.Expired msg.end_height msg.end_time), st)
      else
        (Except.ok Response.default, some state)

/-- `execute` (`src/contract.rs` lines 41-53): load the record (failing with
a propagated storage error if absent) and dispatch to `try_approve` or
`try_refund`.  Neither branch writes storage. -/
def execute (querier : Addr → Except StdError (List Coin)) (env : Env)
    (info : MessageInfo) (msg : ExecuteMsg) (st : Storage) :
    Except ContractError Response × Storage :=
  match st with
  | none => (Except.error (ContractError.Std StdError.notFound), st)
  | some state =>
    match msg with
    | ExecuteMsg.Approve quantity =>
        (try_approve querier env info state quantity, st)
    | ExecuteMsg.Refund => (try_refund querier info env state, st)

/-- C7: `is_expired` returns true iff (`end_height` is set and the current
height has reached it) or (`end_time` is set and the current time has reached
it); in particular it returns false when neither bound is set. -/
theorem is_expired_characterization (s : State) (env : Env) :
    (s.is_expired env = true ↔
      (∃ h, s.end_height = some h ∧ h ≤ env.block_height) ∨
      (∃ t, s.end_time = some t ∧ t ≤ env.block_time)) ∧
    (s.end_height = none → s.end_time = none → s.is_expired env = false) := by
  obtain ⟨a, r, src, eh, et⟩ := s
  cases eh <;> cases et <;>
    simp [State.is_expired, ge_iff_le]

/-- C7 witness: a record with neither bound set is never expired. -/
theorem is_expired_characterization_witness :
    State.is_expired ⟨"verifies", "benefits", "creator", none, none⟩
      ⟨1000000, 1000000, "cosmos2contract"⟩ = false :=
  (is_expired_characterization ⟨"verifies", "benefits", "creator", none, none⟩
    ⟨1000000, 1000000, "cosmos2contract"⟩).2 rfl rfl

/-- C1: for the arbiter calling `Approve` before expiry (with the balance
query returning `bal`), the call succeeds and emits exactly one transfer to
the recipient, of `X` when `quantity = some X` and of the full balance `bal`
when `quantity = none`. -/
theorem try_approve_arbiter_pre_expiry (querier : Addr → Except StdError (List Coin))
    (env : Env) (info : MessageInfo) (state : State)
    (quantity : Option (List Coin)) (bal : List Coin)
    (hexp : state.is_expired env = false)
    (hauth : info.sender = state.arbiter)
    (hbal : querier env.contract_address = Except.ok bal) :
    try_approve querier env info state quantity =
      Except.ok { messages := [BankMsg.Send state.recipient (quantity.getD bal)],
                  attributes := [("Approved", "amount")] } := by
  cases quantity <;>
    simp [try_approve, hexp, hauth, hbal, mapStdErr]

/-- C1 witness: arbiter "verifies" approving with no explicit quantity at
height 900 (bound 1000) releases the full balance of 1000 earth to the
recipient. -/
theorem try_approve_arbiter_pre_expiry_witness :
    try_approve (fun _ => Except.ok [⟨"earth", 1000⟩])
      ⟨900, 0, "cosmos2contract"⟩ ⟨"verifies"⟩
      ⟨"verifies", "benefits", "creator", some 1000, none⟩ none =
      Except.ok { messages := [BankMsg.Send "benefits" [⟨"earth", 1000⟩]],
                  attributes := [("Approved", "amount")] } :=
  try_approve_arbiter_pre_expiry (fun _ => Except.ok [⟨"earth", 1000⟩])
    ⟨900, 0, "cosmos2contract"⟩ ⟨"verifies"⟩
    ⟨"verifies", "benefits", "creator", some 1000, none⟩ none [⟨"earth", 1000⟩]
    (by decide) rfl rfl

/-- C2 counterexample: an already-expired escrow rejects a non-arbiter
`Approve` caller with `Expired`, not `Unauthorized` — the expiry check runs
before the authorization check, so the claim fails after expiry. -/
theorem try_approve_nonarbiter_expired_counterexample :
    (⟨"beneficiary"⟩ : MessageInfo).sender ≠
      (⟨"verifies", "benefits", "creator", some 1000, none⟩ : State).arbiter ∧
    try_approve (fun _ => Except.ok []) ⟨1100, 0, "cosmos2contract"⟩
      ⟨"beneficiary"⟩ ⟨"verifies", "benefits", "creator", some 1000, none⟩ none =
      Except.error (ContractError.Expired (some 1000) none) :=
  ⟨by decide, rfl⟩

/-- C2 amended: for every non-arbiter caller, `Approve` fails with
`Unauthorized` provided the escrow is not expired; after expiry it fails with
`Expired` no matter the caller (expiry is checked first). -/
theorem try_approve_nonarbiter_unauthorized (querier : Addr → Except StdError (List Coin))
    (env : Env) (info : MessageInfo) (state : State)
    (quantity : Option (List Coin))
    (hexp : state.is_expired env = false)
    (hauth : info.sender ≠ state.arbiter) :
    try_approve querier env info state quantity =
      Except.error ContractError.Unauthorized := by
  simp [try_approve, hexp, hauth]

/-- C2 amended witness: "beneficiary" is rejected as unauthorized before
expiry. -/
theorem try_approve_nonarbiter_unauthorized_witness :
    try_approve (fun _ => Except.ok []) ⟨200, 0, "cosmos2contract"⟩
      ⟨"beneficiary"⟩ ⟨"verifies", "benefits", "creator", some 1000, none⟩ none =
      Except.error ContractError.Unauthorized :=
  try_approve_nonarbiter_unauthorized (fun _ => Except.ok [])
    ⟨200, 0, "cosmos2contract"⟩ ⟨"beneficiary"⟩
    ⟨"verifies", "benefits", "creator", some 1000, none⟩ none
    (by decide) (by decide)

/-- C3: the code checks authorization before expiry in `try_refund`, so the
non-arbiter caller "anybody" calling `Refund` pre-expiry (height 900, bound
1000) gets `Unauthorized`, while the claim — and the repository's own
`handle_refund` test — expect `NotExpired`. -/
theorem try_refund_nonarbiter_pre_expiry_eval :
    (⟨"anybody"⟩ : MessageInfo).sender ≠
      (⟨"verifies", "benefits", "creator", some 1000, none⟩ : State).arbiter ∧
    State.is_expired ⟨"verifies", "benefits", "creator", some 1000, none⟩
      ⟨900, 0, "cosmos2contract"⟩ = false ∧
    try_refund (fun _ => Except.ok [⟨"earth", 1000⟩]) ⟨"anybody"⟩
      ⟨900, 0, "cosmos2contract"⟩
      ⟨"verifies", "benefits", "creator", some 1000, none⟩ =
      Except.error ContractError.Unauthorized :=
  ⟨by decide, rfl, rfl⟩

/-- C4: every successful `Refund` emits exactly one transfer, of the full
balance the host querier reports, addressed to the record's `source`. -/
theorem try_refund_success_drains_to_source (querier : Addr → Except StdError (List Coin))
    (info : MessageInfo) (env : Env) (state : State) (r : Response)
    (h : try_refund querier info env state = Except.ok r) :
    ∃ bal, querier env.contract_address = Except.ok bal ∧
      r = { messages := [BankMsg.Send state.source bal], attributes := [] } := by
  unfold try_refund at h
  split at h
  · exact absurd h (by simp)
  · split at h
    · exact absurd h (by simp)
    · cases hq : querier env.contract_address with
      | error e => rw [hq] at h; simp [mapStdErr] at h
      | ok bal =>
        rw [hq] at h
        simp only [mapStdErr, Except.ok.injEq] at h
        exact ⟨bal, rfl, h.symm⟩

/-- C4 witness: the arbiter refunding after expiry sends the full balance of
1000 earth back to "creator". -/
theorem try_refund_success_drains_to_source_witness :
    ∃ bal, (fun _ : Addr => (Except.ok [⟨"earth", 1000⟩] : Except StdError (List Coin)))
        "cosmos2contract" = Except.ok bal ∧
      ({ messages := [BankMsg.Send "creator" [⟨"earth", 1000⟩]],
         attributes := [] } : Response) =
        { messages := [BankMsg.Send "creator" bal], attributes := [] } :=
  try_refund_success_drains_to_source (fun _ => Except.ok [⟨"earth", 1000⟩])
    ⟨"verifies"⟩ ⟨1001, 0, "cosmos2contract"⟩
    ⟨"verifies", "benefits", "creator", some 1000, none⟩
    { messages := [BankMsg.Send "creator" [⟨"earth", 1000⟩]], attributes := [] }
    rfl

/-- C5: with both addresses validating, `instantiate` fails with
`Expired { end_height, end_time }` and leaves storage untouched whenever the
freshly built record is already expired, and otherwise persists the record
(source = caller, validated arbiter and recipient, the given bounds) while
emitting no transfer instruction. -/
theorem instantiate_expiry_behaviour (api : String → Except StdError Addr)
    (env : Env) (info : MessageInfo) (msg : InstantiateMsg) (st : Storage)
    (arb rcpt : Addr)
    (ha : api msg.arbiter = Except.ok arb)
    (hr : api msg.recipient = Except.ok rcpt) :
    (State.is_expired ⟨arb, rcpt, info.sender, msg.end_height, msg.end_time⟩ env = true →
      instantiate api env info msg st =
        (Except.error (ContractError.Expired msg.end_height msg.end_time), st)) ∧
    (State.is_expired ⟨arb, rcpt, info.sender, msg.end_height, msg.end_time⟩ env = false →
      instantiate api env info msg st =
        (Except.ok Response.default,
         some ⟨arb, rcpt, info.sender, msg.end_height, msg.end_time⟩) ∧
      Response.default.messages = []) := by
  constructor <;> intro hx <;>
    simp [instantiate, ha, hr, hx, Response.default]

/-- C5 witness: creating with bound 1000 at height 878 persists the record
for "creator" and emits nothing. -/
theorem instantiate_expiry_behaviour_witness :
    instantiate (fun s => Except.ok s) ⟨878, 0, "cosmos2contract"⟩ ⟨"creator"⟩
      ⟨"verifies", "benefits", some 1000, none⟩ none =
      (Except.ok Response.default,
       some ⟨"verifies", "benefits", "creator", some 1000, none⟩) ∧
    Response.default.messages = [] :=
  (instantiate_expiry_behaviour (fun s => Except.ok s) ⟨878, 0, "cosmos2contract"⟩
    ⟨"creator"⟩ ⟨"verifies", "benefits", some 1000, none⟩ none
    "verifies" "benefits" rfl rfl).2 (by decide)

/-- C6: every caller other than the arbiter is rejected by `Refund` with
`Unauthorized`, whatever the expiry state — the authorization check is the
first check in `try_refund`. -/
theorem try_refund_nonarbiter_unauthorized (querier : Addr → Except StdError (List Coin))
    (info : MessageInfo) (env : Env) (state : State)
    (hauth : info.sender ≠ state.arbiter) :
    try_refund querier info env state = Except.error ContractError.Unauthorized := by
  simp [try_refund, hauth]

/-- C6 witness: "anyone" is rejected even after expiry (height 1001, bound
1000). -/
theorem try_refund_nonarbiter_unauthorized_witness :
    try_refund (fun _ => Except.ok [⟨"earth", 1000⟩]) ⟨"anyone"⟩
      ⟨1001, 0, "cosmos2contract"⟩
      ⟨"verifies", "benefits", "creator", some 1000, none⟩ =
      Except.error ContractError.Unauthorized :=
  try_refund_nonarbiter_unauthorized (fun _ => Except.ok [⟨"earth", 1000⟩])
    ⟨"anyone"⟩ ⟨1001, 0, "cosmos2contract"⟩
    ⟨"verifies", "benefits", "creator", some 1000, none⟩ (by decide)

/-- Storage after any `execute` call equals storage before it: neither
dispatch branch of `execute` writes the config item. -/
theorem execute_storage_unchanged (querier : Addr → Except StdError (List Coin))
    (env : Env) (info : MessageInfo) (msg : ExecuteMsg) (st : Storage) :
    (execute querier env info msg st).2 = st := by
  cases st with
  | none => rfl
  | some state => cases msg <;> rfl

/-- C8: no `execute` call — `Approve` or `Refund`, succeeding or failing —
mutates the stored record: the storage returned by `execute` always equals
the storage passed in, so every field of the record is preserved. -/
theorem execute_preserves_record (querier : Addr → Except StdError (List Coin))
    (env : Env) (info : MessageInfo) (msg : ExecuteMsg) (st : Storage) :
    (execute querier env info msg st).2 = st :=
  execute_storage_unchanged querier env info msg st

/-- C9: failures are side-effect-free: a failing `instantiate` leaves storage
exactly as it was (and, the result being an error, carries no response and
hence no transfer instruction), and `execute` — so `Approve` and `Refund`,
failing or not — never writes storage at all. -/
theorem failures_are_side_effect_free (api : String → Except StdError Addr)
    (querier : Addr → Except StdError (List Coin)) (env : Env)
    (info : MessageInfo) (imsg : InstantiateMsg) (emsg : ExecuteMsg)
    (st : Storage) :
    (∀ e, (instantiate api env info imsg st).1 = Except.error e →
      (instantiate api env info imsg st).2 = st) ∧
    (execute querier env info emsg st).2 = st := by
  refine ⟨?_, execute_storage_unchanged querier env info emsg st⟩
  intro e h
  unfold instantiate at *
  cases hA : api imsg.arbiter with
  | error e1 => simp [hA]
  | ok arb =>
    cases hR : api imsg.recipient with
    | error e2 => simp [hA, hR]
    | ok rcpt =>
      by_cases hx :
          State.is_expired ⟨arb, rcpt, info.sender, imsg.end_height, imsg.end_time⟩ env = true
      · simp [hA, hR, hx]
      · rw [hA, hR] at h
        simp [Bool.not_eq_true] at hx
        simp [hx] at h

/-- C9 witness: an already-expired creation attempt (height 1200, bound
1000) leaves the empty storage empty, and an `execute` on empty storage
(which fails to load the record) leaves it empty too. -/
theorem failures_are_side_effect_free_witness :
    (instantiate (fun s => Except.ok s) ⟨1200, 0, "cosmos2contract"⟩ ⟨"creator"⟩
      ⟨"verifies", "benefits", some 1000, none⟩ none).2 = none ∧
    (execute (fun _ => Except.ok []) ⟨1200, 0, "cosmos2contract"⟩ ⟨"creator"⟩
      ExecuteMsg.Refund none).2 = none :=
  ⟨(failures_are_side_effect_free (fun s => Except.ok s) (fun _ => Except.ok [])
      ⟨1200, 0, "cosmos2contract"⟩ ⟨"creator"⟩
      ⟨"verifies", "benefits", some 1000, none⟩ ExecuteMsg.Refund none).1
      (ContractError.Expired (some 1000) none) rfl,
   (failures_are_side_effect_free (fun s => Except.ok s) (fun _ => Except.ok [])
      ⟨1200, 0, "cosmos2contract"⟩ ⟨"creator"⟩
      ⟨"verifies", "benefits", some 1000, none⟩ ExecuteMsg.Refund none).2⟩

/-- C10: `Approve` does not validate an explicit quantity: the arbiter
supplying `some []` before expiry succeeds with a transfer of the empty coin
list to the recipient, for every querier — in particular for one that always
fails, so the balance is never consulted. -/
theorem try_approve_empty_quantity_unvalidated (env : Env) (info : MessageInfo)
    (state : State)
    (hexp : state.is_expired env = false)
    (hauth : info.sender = state.arbiter) :
    ∀ querier : Addr → Except StdError (List Coin),
      try_approve querier env info state (some []) =
        Except.ok { messages := [BankMsg.Send state.recipient []],
                    attributes := [("Approved", "amount")] } := by
  intro querier
  simp [try_approve, hexp, hauth]

/-- C10 witness: the arbiter approving `some []` at height 900 succeeds with
an empty transfer even though the balance query always fails. -/
theorem try_approve_empty_quantity_unvalidated_witness :
    try_approve (fun _ => Except.error (StdError.genericErr "no balance"))
      ⟨900, 0, "cosmos2contract"⟩ ⟨"verifies"⟩
      ⟨"verifies", "benefits", "creator", some 1000, none⟩ (some []) =
      Except.ok { messages := [BankMsg.Send "benefits" []],
                  attributes := [("Approved", "amount")] } :=
  try_approve_empty_quantity_unvalidated ⟨900, 0, "cosmos2contract"⟩
    ⟨"verifies"⟩ ⟨"verifies", "benefits", "creator", some 1000, none⟩
    (by decide) rfl (fun _ => Except.error (StdError.genericErr "no balance"))
